import Mathlib

/-!
Shallow embedding of the TravelMemory core (src/src/App.tsx): the memory
timeline, the speech-transcription session state, and the narrative
synthesizer (`generateStory`), together with proofs of the specified
properties.  JavaScript numbers carried by waypoints are modelled as
rationals; `Date.now()` values are modelled as naturals supplied explicitly
to each state transition.
-/

namespace TravelMem

/-- Whitespace trimming on both ends, modelling JavaScript
`String.prototype.trim` (used as `transcript.trim()` in `toggleRecording`). -/
def jsTrim (s : String) : String :=
  String.mk (((s.data.dropWhile Char.isWhitespace).reverse.dropWhile Char.isWhitespace).reverse)

/-- Little-endian decimal digits of a natural number (empty for 0). -/
def toDecimalDigits : Nat → List Nat
  | 0 => []
  | n + 1 => ((n + 1) % 10) :: toDecimalDigits ((n + 1) / 10)
decreasing_by exact Nat.div_lt_self (Nat.succ_pos n) (by omega)

/-- Value of a little-endian decimal digit list. -/
def ofDecimalDigits : List Nat → Nat
  | [] => 0
  | d :: ds => d + 10 * ofDecimalDigits ds

/-- Decimal string of a natural number, modelling JavaScript
`Number.prototype.toString` on nonnegative integers (`Date.now().toString()`). -/
def natToString (n : Nat) : String :=
  if n = 0 then "0" else String.mk (((toDecimalDigits n).reverse).map Nat.digitChar)

/-- Mirrors the `LocationData` interface (name, lat, lng). -/
structure LocationData where
  name : String
  lat : Rat
  lng : Rat
deriving DecidableEq

/-- Mirrors `MemoryType = 'photo' | 'voice' | 'text'`. -/
inductive MemoryType where
  | photo
  | voice
  | text
deriving DecidableEq

/-- Mirrors the `MemoryItem` interface. -/
structure MemoryItem where
  id : String
  type : MemoryType
  content : String
  timestamp : Nat
  location : LocationData
deriving DecidableEq

/-- One speech-recognition result segment (`{transcript, isFinal}` pair as
consumed by the `onresult` handler). -/
structure Segment where
  text : String
  isFinal : Bool
deriving DecidableEq

/-- The component state of `App`: the `useState` cells that the embedded
operations read and write. -/
structure AppState where
  memories : List MemoryItem
  isRecording : Bool
  transcript : String
  generatedStory : Option String
  isGenerating : Bool
  currentLocation : LocationData
deriving DecidableEq

/-- `URL.createObjectURL`, modelled as a deterministic blob-URL constructor. -/
def createObjectURL (file : String) : String :=
  "blob:" ++ file

/-- `handlePhotoUpload` (App.tsx lines 50-63): if the change event carries a
file, prepend a fresh photo entry stamped with the current location and
`Date.now()`; otherwise do nothing. -/
def handlePhotoUpload (file : Option String) (now : Nat) (s : AppState) : AppState :=
  match file with
  | none => s
  | some f =>
    let newMemory : MemoryItem :=
      { id := natToString now
        type := MemoryType.photo
        content := createObjectURL f
        timestamp := now
        location := s.currentLocation }
    { s with memories := newMemory :: s.memories }

/-- `addTextMemory` (App.tsx lines 109-118): prepend a voice-kind entry with
the given text, stamped with the current location and `Date.now()`. -/
def addTextMemory (text : String) (now : Nat) (s : AppState) : AppState :=
  let newMemory : MemoryItem :=
    { id := natToString now
      type := MemoryType.voice
      content := text
      timestamp := now
      location := s.currentLocation }
  { s with memories := newMemory :: s.memories }

/-- The `onresult` handler (App.tsx lines 76-85): each final segment is
appended to `transcript`; non-final segments only accumulate into a local
`interimTranscript` variable that is discarded. -/
def onResult (segments : List Segment) (s : AppState) : AppState :=
  { s with
    transcript :=
      segments.foldl (fun t seg => if seg.isFinal then t ++ seg.text else t) s.transcript }

/-- `toggleRecording` (App.tsx lines 94-107): when recording, stop; if the
trimmed transcript is nonempty, add it (untrimmed) as a voice memory and clear
the transcript.  When idle, clear the transcript and start recording. -/
def toggleRecording (now : Nat) (s : AppState) : AppState :=
  if s.isRecording then
    let s1 := { s with isRecording := false }
    if jsTrim s1.transcript ≠ "" then
      { addTextMemory s1.transcript now s1 with transcript := "" }
    else
      s1
  else
    { s with transcript := "", isRecording := true }

/-- `deleteMemory` (App.tsx lines 170-172): keep exactly the entries whose id
differs from the argument. -/
def deleteMemory (i : String) (s : AppState) : AppState :=
  { s with memories := s.memories.filter (fun m => m.id != i) }

/-- `Array.from(new Set(names))`: JavaScript `Set` keeps insertion order and
ignores elements already present. -/
def jsSetFromList (names : List String) : List String :=
  names.foldl (fun acc x => if x ∈ acc then acc else acc ++ [x]) []

/-- `uniqueLocations` (App.tsx line 126): the deduplicated waypoint names, in
first-occurrence order of the newest-first `memories` array. -/
def uniqueLocations (memories : List MemoryItem) : List String :=
  jsSetFromList (memories.map (fun m => m.location.name))

/-- The per-entry map link (App.tsx line 147). -/
def mapLink (loc : LocationData) : String :=
  "https://www.google.com/maps/search/?api=1&query=" ++ toString loc.lat ++ "," ++ toString loc.lng

/-- The per-entry narrative section (App.tsx lines 146-160): voice entries
quote their content, photo entries get a fixed placeholder, anything else
yields the empty string. -/
def renderSection (m : MemoryItem) : String :=
  match m.type with
  | MemoryType.voice =>
    "\n**📍 " ++ m.location.name ++ "**\n> 💭 語音筆記：「" ++ m.content ++
      "」\n> [🗺️ 查看地圖座標](" ++ mapLink m.location ++ ")\n"
  | MemoryType.photo =>
    "\n**📍 " ++ m.location.name ++ "**\n(📸 這裡拍下的照片捕捉了當下的氛圍)\n> [🗺️ 查看地圖座標](" ++
      mapLink m.location ++ ")\n"
  | MemoryType.text => ""

/-- The structured view of the document `generateStory` assembles
(App.tsx lines 126-164); each field is the corresponding template expression. -/
structure NarrativeDocument where
  title : String
  dateGenerated : String
  waypointSequence : List String
  sections : List String
deriving DecidableEq

/-- `generateStory` (App.tsx lines 121-168) as a document producer: `none` on
an empty timeline (the guard `if (memories.length === 0) return`), otherwise
the document assembled from the snapshot and the current date. -/
def generateStory (today : String) (memories : List MemoryItem) : Option NarrativeDocument :=
  if memories.length = 0 then none
  else
    let uniq := uniqueLocations memories
    some
      { title := "# 🗺️ 旅程回憶錄：" ++ uniq.headD "" ++ " 之旅"
        dateGenerated := today
        waypointSequence := uniq
        sections := memories.map renderSection }

/-- The full story text assembled by the template literal
(App.tsx lines 129-164). -/
def storyString (today : String) (memories : List MemoryItem) : String :=
  let uniq := uniqueLocations memories
  "\n# 🗺️ 旅程回憶錄：" ++ uniq.headD "" ++ " 之旅\n\n**📅 日期**：" ++ today ++
    "\n**📍 足跡**：" ++ String.intercalate " ➝ " uniq ++
    "\n\n---\n\n### 🚶‍♂️ 旅遊路線圖 (Google Maps Timeline)\n*(此處模擬 Google Maps 路徑預覽)*\n> 系統已自動將您的 " ++
    natToString memories.length ++
    " 個打卡點連成一條路徑。\n> [🔗 點擊查看 Google Maps 完整路線](https://www.google.com/maps/dir/" ++
    String.intercalate "/" (memories.map fun m => m.location.name) ++
    ")\n\n---\n\n### 📸 旅途高光時刻\n\n" ++
    String.intercalate "\n" (memories.map renderSection) ++
    "\n\n---\n*這篇遊記由 TravelMemory AI 自動彙整，結合了您的照片、語音口述與 Google Maps 足跡。*\n      "

/-- The `generateStory` state transition with the `setTimeout` completion
applied: on an empty timeline the state is returned unchanged, otherwise the
story text replaces `generatedStory`. -/
def generateStoryApp (today : String) (s : AppState) : AppState :=
  if s.memories.length = 0 then s
  else { s with generatedStory := some (storyString today s.memories), isGenerating := false }

/-- Spec-side definition: keep only the first occurrence of each name, in
first-occurrence order. -/
def firstOccurrences : List String → List String
  | [] => []
  | x :: xs => x :: firstOccurrences (xs.filter (fun y => y != x))
termination_by l => l.length
decreasing_by simp_wf; exact Nat.lt_succ_of_le (List.length_filter_le _ _)

/-- Spec-side definition of `waypointSequence`: iterate the entries
oldest-first (the reverse of newest-first storage order), collect waypoint
names, keep first occurrences only. -/
def specWaypointSequence (memories : List MemoryItem) : List String :=
  firstOccurrences ((memories.map (fun m => m.location.name)).reverse)

/-- Spec-side definition: concatenation (no separator) of the texts of the
final segments, in receipt order. -/
def concatFinals : List Segment → String
  | [] => ""
  | seg :: rest => (if seg.isFinal then seg.text else "") ++ concatFinals rest

/-- A timeline insertion, as performed by the two capture handlers:
a photo upload carrying a file, or a committed voice note. -/
inductive CaptureEvent where
  | photoCapture (file : String) (now : Nat)
  | voiceNote (text : String) (now : Nat)
deriving DecidableEq

/-- Apply one capture event through the corresponding handler. -/
def applyCapture (s : AppState) (e : CaptureEvent) : AppState :=
  match e with
  | CaptureEvent.photoCapture f now => handlePhotoUpload (some f) now s
  | CaptureEvent.voiceNote t now => addTextMemory t now s

/-- Run a sequence of capture events in order. -/
def runCaptures (s : AppState) (es : List CaptureEvent) : AppState :=
  es.foldl applyCapture s

/-- The `Date.now()` stamp of a capture event. -/
def eventTime : CaptureEvent → Nat
  | CaptureEvent.photoCapture _ now => now
  | CaptureEvent.voiceNote _ now => now

/-- The memory entry a capture event inserts, at a given location. -/
def eventEntry (loc : LocationData) : CaptureEvent → MemoryItem
  | CaptureEvent.photoCapture f now =>
    { id := natToString now
      type := MemoryType.photo
      content := createObjectURL f
      timestamp := now
      location := loc }
  | CaptureEvent.voiceNote t now =>
    { id := natToString now
      type := MemoryType.voice
      content := t
      timestamp := now
      location := loc }

/-- Concrete waypoints used by the example snapshots. -/
def tokyo : LocationData := { name := "Tokyo", lat := 1, lng := 2 }

def paris : LocationData := { name := "Paris", lat := 3, lng := 4 }

def kyoto : LocationData := { name := "Kyoto", lat := 5, lng := 6 }

/-- Entries captured at [Tokyo, Paris, Tokyo, Kyoto] oldest-to-newest, hence
stored newest-first. -/
def exampleSnapshot : List MemoryItem :=
  [ { id := "3", type := MemoryType.voice, content := "d", timestamp := 3, location := kyoto },
    { id := "2", type := MemoryType.voice, content := "c", timestamp := 2, location := tokyo },
    { id := "1", type := MemoryType.voice, content := "b", timestamp := 1, location := paris },
    { id := "0", type := MemoryType.voice, content := "a", timestamp := 0, location := tokyo } ]

/-- A fresh state with an empty timeline and no active recording. -/
def initState : AppState :=
  { memories := []
    isRecording := false
    transcript := ""
    generatedStory := none
    isGenerating := false
    currentLocation := tokyo }

/-- A state in the middle of an active recording session with an empty
accumulated transcript. -/
def recState : AppState :=
  { initState with isRecording := true }

/-- A text-kind entry (the third constructor of `MemoryType`, never produced
by the capture handlers but admitted by the data model). -/
def textEntry : MemoryItem :=
  { id := "9", type := MemoryType.text, content := "note", timestamp := 9, location := tokyo }

/-- A snapshot with one photo entry and one voice entry at the same waypoint. -/
def mixedSnapshot : List MemoryItem :=
  [ { id := "1", type := MemoryType.photo, content := "blob:img", timestamp := 1, location := tokyo },
    { id := "0", type := MemoryType.voice, content := "Hello", timestamp := 0, location := tokyo } ]

/-- A state whose timeline holds the example snapshot. -/
def delState : AppState :=
  { initState with memories := exampleSnapshot }

/-- Two capture events with distinct timestamps. -/
def exampleEvents : List CaptureEvent :=
  [CaptureEvent.voiceNote "a" 0, CaptureEvent.photoCapture "pic" 1]

theorem toDecimalDigits_lt_ten (n : Nat) : ∀ d ∈ toDecimalDigits n, d < 10 := by
  induction n using Nat.strong_induction_on with
  | _ n ih =>
    match n with
    | 0 => intro d hd; simp [toDecimalDigits] at hd
    | m + 1 =>
      intro d hd
      simp only [toDecimalDigits] at hd
      rcases List.mem_cons.mp hd with h | h
      · subst h; exact Nat.mod_lt _ (by omega)
      · exact ih ((m + 1) / 10) (Nat.div_lt_self (Nat.succ_pos m) (by omega)) d h

theorem ofDecimalDigits_toDecimalDigits (n : Nat) :
    ofDecimalDigits (toDecimalDigits n) = n := by
  induction n using Nat.strong_induction_on with
  | _ n ih =>
    match n with
    | 0 => simp [toDecimalDigits, ofDecimalDigits]
    | m + 1 =>
      simp only [toDecimalDigits, ofDecimalDigits]
      rw [ih ((m + 1) / 10) (Nat.div_lt_self (Nat.succ_pos m) (by omega))]
      omega

theorem toDecimalDigits_injective : Function.Injective toDecimalDigits := by
  intro a b h
  have ha := ofDecimalDigits_toDecimalDigits a
  rw [h, ofDecimalDigits_toDecimalDigits] at ha
  exact ha.symm

theorem digitChar_inj_lt : ∀ a < 10, ∀ b < 10, Nat.digitChar a = Nat.digitChar b → a = b := by
  decide

theorem map_digitChar_inj : ∀ l1 l2 : List Nat, (∀ d ∈ l1, d < 10) → (∀ d ∈ l2, d < 10) →
    l1.map Nat.digitChar = l2.map Nat.digitChar → l1 = l2 := by
  intro l1
  induction l1 with
  | nil =>
    intro l2 _ _ h
    cases l2 with
    | nil => rfl
    | cons b bs => simp at h
  | cons a as ih =>
    intro l2 h1 h2 h
    cases l2 with
    | nil => simp at h
    | cons b bs =>
      simp only [List.map_cons, List.cons.injEq] at h
      have ha : a = b := digitChar_inj_lt a (h1 a (by simp)) b (h2 b (by simp)) h.1
      have has : as = bs := ih bs (fun d hd => h1 d (by simp [hd])) (fun d hd => h2 d (by simp [hd])) h.2
      rw [ha, has]

theorem natToString_injective : Function.Injective natToString := by
  have key : ∀ b : Nat, b ≠ 0 → "0" = String.mk (((toDecimalDigits b).reverse).map Nat.digitChar) → False := by
    intro b hb h
    have hdata : (['0'] : List Char) = ((toDecimalDigits b).reverse).map Nat.digitChar :=
      congrArg String.data h
    have hrev : ([0] : List Nat) = (toDecimalDigits b).reverse := by
      apply map_digitChar_inj
      · intro d hd; simp at hd; omega
      · intro d hd; exact toDecimalDigits_lt_ten b d (List.mem_reverse.mp hd)
      · exact hdata.symm ▸ (by decide)
    have hb0 : toDecimalDigits b = [0] := by
      have := congrArg List.reverse hrev
      simpa [List.reverse_reverse] using this.symm
    have := ofDecimalDigits_toDecimalDigits b
    rw [hb0] at this
    simp [ofDecimalDigits] at this
    exact hb this.symm
  intro a b h
  unfold natToString at h
  by_cases ha : a = 0 <;> by_cases hb : b = 0
  · rw [ha, hb]
  · rw [if_pos ha, if_neg hb] at h
    exact absurd h (fun hc => key b hb hc)
  · rw [if_neg ha, if_pos hb] at h
    exact absurd h.symm (fun hc => key a ha hc)
  · rw [if_neg ha, if_neg hb] at h
    have hdata : ((toDecimalDigits a).reverse).map Nat.digitChar =
        ((toDecimalDigits b).reverse).map Nat.digitChar := congrArg String.data h
    have hrev := map_digitChar_inj _ _
      (fun d hd => toDecimalDigits_lt_ten a d (List.mem_reverse.mp hd))
      (fun d hd => toDecimalDigits_lt_ten b d (List.mem_reverse.mp hd)) hdata
    have := congrArg List.reverse hrev
    simp only [List.reverse_reverse] at this
    exact toDecimalDigits_injective this

theorem foldl_setInsert_eq (l : List String) : ∀ acc : List String,
    l.foldl (fun acc x => if x ∈ acc then acc else acc ++ [x]) acc =
      acc ++ firstOccurrences (l.filter (fun y => decide (y ∉ acc))) := by
  induction l with
  | nil => intro acc; simp [firstOccurrences]
  | cons x xs ih =>
    intro acc
    by_cases hx : x ∈ acc
    · simp only [List.foldl_cons, if_pos hx]
      rw [ih acc]
      have hfc : (x :: xs).filter (fun y => decide (y ∉ acc)) =
          xs.filter (fun y => decide (y ∉ acc)) := by
        simp [List.filter_cons, hx]
      rw [hfc]
    · simp only [List.foldl_cons, if_neg hx]
      rw [ih (acc ++ [x])]
      have hfc : (x :: xs).filter (fun y => decide (y ∉ acc)) =
          x :: xs.filter (fun y => decide (y ∉ acc)) := by
        simp [List.filter_cons, hx]
      rw [hfc, List.append_assoc]
      have hmain : firstOccurrences (xs.filter (fun y => decide (y ∉ acc ++ [x]))) =
          firstOccurrences ((xs.filter (fun y => decide (y ∉ acc))).filter (fun y => y != x)) := by
        apply congrArg
        rw [List.filter_filter]
        apply List.filter_congr
        intro y _
        by_cases h1 : y = x <;> by_cases h2 : y ∈ acc <;>
          simp [h1, h2, List.mem_append]
      rw [hmain]
      simp [firstOccurrences]

theorem jsSetFromList_eq_firstOccurrences (names : List String) :
    jsSetFromList names = firstOccurrences names := by
  unfold jsSetFromList
  rw [foldl_setInsert_eq]
  have : names.filter (fun y => decide (y ∉ ([] : List String))) = names := by
    apply List.filter_eq_self.mpr
    intro a _
    simp
  rw [this, List.nil_append]

theorem uniqueLocations_eq_firstOccurrences (memories : List MemoryItem) :
    uniqueLocations memories = firstOccurrences (memories.map fun m => m.location.name) :=
  jsSetFromList_eq_firstOccurrences _

theorem foldl_segments (segs : List Segment) : ∀ init : String,
    segs.foldl (fun t seg => if seg.isFinal then t ++ seg.text else t) init =
      init ++ concatFinals segs := by
  induction segs with
  | nil => intro init; simp [concatFinals, String.append_empty]
  | cons seg rest ih =>
    intro init
    simp only [List.foldl_cons, concatFinals]
    cases hf : seg.isFinal
    · simp [hf, ih init, String.empty_append]
    · simp [hf, ih (init ++ seg.text), String.append_assoc]

theorem onResult_transcript (segs : List Segment) (s : AppState) :
    (onResult segs s).transcript = s.transcript ++ concatFinals segs :=
  foldl_segments segs s.transcript

theorem concatFinals_interim (segs : List Segment)
    (h : ∀ seg ∈ segs, seg.isFinal = false) : concatFinals segs = "" := by
  induction segs with
  | nil => rfl
  | cons seg rest ih =>
    simp only [concatFinals]
    rw [if_neg (by simp [h seg (by simp)]), ih (fun x hx => h x (by simp [hx])),
      String.empty_append]

theorem onResult_interim (segs : List Segment)
    (h : ∀ seg ∈ segs, seg.isFinal = false) (s : AppState) : onResult segs s = s := by
  unfold onResult
  rw [foldl_segments, concatFinals_interim segs h, String.append_empty]

theorem toggleRecording_start (now : Nat) (s : AppState) (h : s.isRecording = false) :
    toggleRecording now s = { s with transcript := "", isRecording := true } := by
  unfold toggleRecording
  rw [h]
  rfl

theorem toggleRecording_stop_commit (now : Nat) (s : AppState) (h : s.isRecording = true)
    (hne : jsTrim s.transcript ≠ "") :
    toggleRecording now s =
      { s with
          isRecording := false
          transcript := ""
          memories :=
            { id := natToString now
              type := MemoryType.voice
              content := s.transcript
              timestamp := now
              location := s.currentLocation } :: s.memories } := by
  unfold toggleRecording
  rw [h]
  show (if jsTrim s.transcript ≠ "" then _ else _) = _
  rw [if_pos hne]
  rfl

theorem toggleRecording_stop_empty (now : Nat) (s : AppState) (h : s.isRecording = true)
    (he : jsTrim s.transcript = "") :
    toggleRecording now s = { s with isRecording := false } := by
  unfold toggleRecording
  rw [h]
  show (if jsTrim s.transcript ≠ "" then _ else _) = _
  rw [if_neg (by simp [he])]

theorem applyCapture_memories (s : AppState) (e : CaptureEvent) :
    applyCapture s e = { s with memories := eventEntry s.currentLocation e :: s.memories } := by
  cases e <;> rfl

theorem eventEntry_id (loc : LocationData) (e : CaptureEvent) :
    (eventEntry loc e).id = natToString (eventTime e) := by
  cases e <;> rfl

theorem runCaptures_spec (es : List CaptureEvent) : ∀ s : AppState,
    (runCaptures s es).memories = es.reverse.map (eventEntry s.currentLocation) ++ s.memories ∧
    (runCaptures s es).currentLocation = s.currentLocation := by
  induction es with
  | nil => intro s; exact ⟨by simp [runCaptures], rfl⟩
  | cons e es ih =>
    intro s
    have hstep : runCaptures s (e :: es) = runCaptures (applyCapture s e) es := rfl
    have h1 := ih (applyCapture s e)
    rw [applyCapture_memories] at h1
    constructor
    · rw [hstep, applyCapture_memories]
      rw [h1.1]
      simp [List.reverse_cons, List.map_append]
    · rw [hstep, applyCapture_memories]
      exact h1.2

/-- C1, counterexample: for entries captured at [Tokyo, Paris, Tokyo, Kyoto]
oldest-to-newest, the synthesized `waypointSequence` is [Kyoto, Tokyo, Paris]
(first occurrences in newest-first storage order), not the oldest-first
deduplication [Tokyo, Paris, Kyoto] that the claim asserts. -/
theorem C1_counterexample :
    (generateStory "2026-10-11" exampleSnapshot).map NarrativeDocument.waypointSequence =
      some ["Kyoto", "Tokyo", "Paris"] ∧
    specWaypointSequence exampleSnapshot = ["Tokyo", "Paris", "Kyoto"] ∧
    (generateStory "2026-10-11" exampleSnapshot).map NarrativeDocument.waypointSequence ≠
      some (specWaypointSequence exampleSnapshot) := by
  have h1 : (generateStory "2026-10-11" exampleSnapshot).map NarrativeDocument.waypointSequence =
      some ["Kyoto", "Tokyo", "Paris"] := by decide
  have h2 : specWaypointSequence exampleSnapshot = ["Tokyo", "Paris", "Kyoto"] := by
    simp [specWaypointSequence, exampleSnapshot, firstOccurrences, tokyo, paris, kyoto]
  refine ⟨h1, h2, ?_⟩
  rw [h1, h2]
  decide

/-- C1 (amended): for every non-empty timeline snapshot, the synthesized
document's `waypointSequence` equals the list of waypoint names obtained by
iterating the entries in storage order (newest-first), keeping only the first
occurrence of each name, in that first-occurrence order. -/
theorem C1_waypointSequence_newest_first (today : String) (memories : List MemoryItem)
    (h : memories ≠ []) :
    (generateStory today memories).map NarrativeDocument.waypointSequence =
      some (firstOccurrences (memories.map fun m => m.location.name)) := by
  unfold generateStory
  rw [if_neg (by simpa using h)]
  rw [Option.map_some']
  show some (uniqueLocations memories) = _
  rw [uniqueLocations_eq_firstOccurrences]

/-- C1 witness: the amended theorem applied to the example snapshot. -/
theorem C1_witness :
    exampleSnapshot ≠ [] ∧
    (generateStory "2026-10-11" exampleSnapshot).map NarrativeDocument.waypointSequence =
      some (firstOccurrences (exampleSnapshot.map fun m => m.location.name)) :=
  ⟨by decide, C1_waypointSequence_newest_first "2026-10-11" exampleSnapshot (by decide)⟩

/-- C2, counterexample: for the [Tokyo, Paris, Tokyo, Kyoto] (oldest-to-newest)
snapshot, the title references "Kyoto" — the waypoint of the most recent entry —
while the earliest distinct waypoint visited is "Tokyo"; the title is not built
from the oldest-first sequence's first element. -/
theorem C2_counterexample :
    (generateStory "2026-10-11" exampleSnapshot).map NarrativeDocument.title =
      some "# 🗺️ 旅程回憶錄：Kyoto 之旅" ∧
    (specWaypointSequence exampleSnapshot).headD "" = "Tokyo" ∧
    (generateStory "2026-10-11" exampleSnapshot).map NarrativeDocument.title ≠
      some ("# 🗺️ 旅程回憶錄：" ++ (specWaypointSequence exampleSnapshot).headD "" ++ " 之旅") := by
  have h1 : (generateStory "2026-10-11" exampleSnapshot).map NarrativeDocument.title =
      some "# 🗺️ 旅程回憶錄：Kyoto 之旅" := by decide
  have h2 : specWaypointSequence exampleSnapshot = ["Tokyo", "Paris", "Kyoto"] := by
    simp [specWaypointSequence, exampleSnapshot, firstOccurrences, tokyo, paris, kyoto]
  refine ⟨h1, by rw [h2]; rfl, ?_⟩
  rw [h1, h2]
  decide

/-- C2 (amended): for every non-empty timeline snapshot, the title references
the first element of `waypointSequence`, and that first element is the waypoint
name of the most recently captured entry (the head of newest-first storage),
not the earliest distinct waypoint. -/
theorem C2_title_most_recent (today : String) (memories : List MemoryItem)
    (h : memories ≠ []) :
    (generateStory today memories).map NarrativeDocument.title =
      some ("# 🗺️ 旅程回憶錄：" ++ (memories.map fun m => m.location.name).headD "" ++ " 之旅") ∧
    (generateStory today memories).map (fun doc => doc.waypointSequence.headD "") =
      some ((memories.map fun m => m.location.name).headD "") := by
  obtain ⟨x, xs, rfl⟩ : ∃ x xs, memories = x :: xs := by
    cases memories with
    | nil => exact absurd rfl h
    | cons x xs => exact ⟨x, xs, rfl⟩
  have huniq : (uniqueLocations (x :: xs)).headD "" = x.location.name := by
    rw [uniqueLocations_eq_firstOccurrences]
    simp only [List.map_cons, firstOccurrences]
    rfl
  constructor
  · unfold generateStory
    rw [if_neg (by simp)]
    rw [Option.map_some']
    show some ("# 🗺️ 旅程回憶錄：" ++ (uniqueLocations (x :: xs)).headD "" ++ " 之旅") = _
    rw [huniq]
    rfl
  · unfold generateStory
    rw [if_neg (by simp)]
    rw [Option.map_some']
    show some ((uniqueLocations (x :: xs)).headD "") = _
    rw [huniq]
    rfl

/-- C2 witness: the amended theorem applied to the example snapshot. -/
theorem C2_witness :
    exampleSnapshot ≠ [] ∧
    (generateStory "2026-10-11" exampleSnapshot).map NarrativeDocument.title =
      some ("# 🗺️ 旅程回憶錄：" ++ (exampleSnapshot.map fun m => m.location.name).headD "" ++ " 之旅") ∧
    (generateStory "2026-10-11" exampleSnapshot).map (fun doc => doc.waypointSequence.headD "") =
      some ((exampleSnapshot.map fun m => m.location.name).headD "") :=
  ⟨by decide,
    (C2_title_most_recent "2026-10-11" exampleSnapshot (by decide)).1,
    (C2_title_most_recent "2026-10-11" exampleSnapshot (by decide)).2⟩

/-- C3, counterexample: with an active session that received the single final
segment " Hello", the entry created at stop carries the untrimmed accumulated
text " Hello", not the trimmed text "Hello" the claim asserts (trimming is only
used as the nonemptiness guard). -/
theorem C3_counterexample :
    (toggleRecording 7 (onResult [{ text := " Hello", isFinal := true }] recState)).memories.map
        MemoryItem.content = [" Hello"] ∧
    jsTrim " Hello" = "Hello" ∧
    (" Hello" : String) ≠ "Hello" := by
  refine ⟨by decide, by decide, by decide⟩

/-- C3 (amended): during an active session the transcript accumulates exactly
the concatenation (no separator) of the final segments' texts in receipt order;
stop creates an entry iff the trimmed accumulation is nonempty: when it is
nonempty, stop commits a voice entry carrying the untrimmed accumulation (for
final segments "Hello " and "world" this is "Hello world", which equals its own
trim), clears the transcript and deactivates the session; when the trimmed
accumulation is empty, stop only deactivates the session and no entry is
created — the timeline is unchanged. -/
theorem C3_stop_commits_accumulated (segs : List Segment) (s : AppState) (now : Nat)
    (h : s.isRecording = true) :
    (onResult segs s).transcript = s.transcript ++ concatFinals segs ∧
    (jsTrim (s.transcript ++ concatFinals segs) ≠ "" →
      toggleRecording now (onResult segs s) =
        { s with
            isRecording := false
            transcript := ""
            memories :=
              { id := natToString now
                type := MemoryType.voice
                content := s.transcript ++ concatFinals segs
                timestamp := now
                location := s.currentLocation } :: s.memories }) ∧
    (jsTrim (s.transcript ++ concatFinals segs) = "" →
      toggleRecording now (onResult segs s) =
        { s with
            transcript := s.transcript ++ concatFinals segs
            isRecording := false } ∧
      (toggleRecording now (onResult segs s)).memories = s.memories) := by
  have hfold : (onResult segs s).transcript = s.transcript ++ concatFinals segs :=
    onResult_transcript segs s
  have hrec : (onResult segs s).isRecording = true := h
  have honres : onResult segs s = { s with transcript := s.transcript ++ concatFinals segs } := by
    unfold onResult
    rw [foldl_segments]
  refine ⟨hfold, fun hne => ?_, fun hemp => ?_⟩
  · have hne2 : jsTrim (onResult segs s).transcript ≠ "" := by rw [hfold]; exact hne
    rw [toggleRecording_stop_commit now (onResult segs s) hrec hne2, hfold]
    rfl
  · have hemp2 : jsTrim (onResult segs s).transcript = "" := by rw [hfold]; exact hemp
    have heq := toggleRecording_stop_empty now (onResult segs s) hrec hemp2
    constructor
    · rw [heq, honres]
    · rw [heq]
      rfl

/-- C3 witness: after final segments "Hello " and "world", stop commits a
voice entry whose content is "Hello world"; after the whitespace-only final
segment "   " (trimmed accumulation empty), stop creates no entry. -/
theorem C3_witness :
    recState.isRecording = true ∧
    toggleRecording 7 (onResult [⟨"Hello ", true⟩, ⟨"world", true⟩] recState) =
      { recState with
          isRecording := false
          transcript := ""
          memories :=
            [{ id := natToString 7
               type := MemoryType.voice
               content := "Hello world"
               timestamp := 7
               location := tokyo }] } ∧
    (toggleRecording 7 (onResult [⟨"   ", true⟩] recState)).memories = [] :=
  ⟨rfl,
    (C3_stop_commits_accumulated [⟨"Hello ", true⟩, ⟨"world", true⟩] recState 7 rfl).2.1
      (by decide),
    ((C3_stop_commits_accumulated [⟨"   ", true⟩] recState 7 rfl).2.2 (by decide)).2⟩

/-- C4, counterexample: two insertions carrying the same `Date.now()` value
(two captures within the same millisecond) produce two entries with the same
id "0", so the ids in the timeline are not pairwise distinct as the claim
asserts. -/
theorem C4_counterexample :
    ((runCaptures initState [CaptureEvent.voiceNote "a" 0, CaptureEvent.voiceNote "b" 0]).memories.map
        MemoryItem.id) = ["0", "0"] ∧
    ¬ ((runCaptures initState [CaptureEvent.voiceNote "a" 0,
        CaptureEvent.voiceNote "b" 0]).memories.map MemoryItem.id).Nodup := by
  exact ⟨by decide, by decide⟩

/-- C4 (amended): starting from an empty timeline, N insertions leave exactly
N entries in reverse-insertion order (newest first); every insertion places the
new entry at position 0 with the existing entries unchanged behind it; and the
ids are pairwise distinct provided the insertions' `Date.now()` timestamps are
pairwise distinct (ids are the decimal timestamps, so same-millisecond
insertions collide). -/
theorem C4_timeline_insertion (es : List CaptureEvent) (s : AppState)
    (h : s.memories = []) :
    (runCaptures s es).memories = es.reverse.map (eventEntry s.currentLocation) ∧
    (runCaptures s es).memories.length = es.length ∧
    ((es.map eventTime).Nodup → ((runCaptures s es).memories.map MemoryItem.id).Nodup) ∧
    (∀ (s2 : AppState) (e : CaptureEvent),
      applyCapture s2 e = { s2 with memories := eventEntry s2.currentLocation e :: s2.memories }) := by
  have hs := (runCaptures_spec es s).1
  rw [h, List.append_nil] at hs
  refine ⟨hs, ?_, ?_, fun s2 e => applyCapture_memories s2 e⟩
  · rw [hs]
    simp
  · intro hnd
    rw [hs, List.map_map]
    have hcomp : (MemoryItem.id ∘ eventEntry s.currentLocation) =
        fun e => natToString (eventTime e) :=
      funext fun e => eventEntry_id s.currentLocation e
    rw [hcomp]
    show (List.map (natToString ∘ eventTime) es.reverse).Nodup
    rw [← List.map_map, List.map_reverse, List.map_reverse, List.nodup_reverse]
    exact List.Nodup.map natToString_injective hnd

/-- C4 witness: two insertions at distinct timestamps 0 and 1 yield two
entries, newest first, with distinct ids. -/
theorem C4_witness :
    initState.memories = [] ∧
    (exampleEvents.map eventTime).Nodup ∧
    (runCaptures initState exampleEvents).memories =
      exampleEvents.reverse.map (eventEntry initState.currentLocation) ∧
    (runCaptures initState exampleEvents).memories.length = 2 ∧
    ((runCaptures initState exampleEvents).memories.map MemoryItem.id).Nodup := by
  have h := C4_timeline_insertion exampleEvents initState rfl
  exact ⟨rfl, by decide, h.1, h.2.1, h.2.2.1 (by decide)⟩

/-- C5, counterexample: a snapshot containing a text-kind entry (content
"note") synthesizes that entry's section as the empty string, not as the
content quoted verbatim as the claim asserts for Text entries. -/
theorem C5_counterexample :
    (generateStory "2026-10-11" [textEntry]).map NarrativeDocument.sections = some [""] ∧
    ("" : String) ≠
      "\n**📍 Tokyo**\n> 💭 語音筆記：「note」\n> [🗺️ 查看地圖座標](https://www.google.com/maps/search/?api=1&query=1,2)\n" := by
  exact ⟨by decide, by decide⟩

/-- C5 (amended): for every non-empty snapshot, synthesis emits exactly one
section per entry in the original newest-first storage order, none dropped
(also when entries share a waypoint); a Photo entry yields the fixed
placeholder body with a map-query link built from its waypoint's latitude and
longitude, a Voice entry yields its content quoted verbatim with the same
link, and a text-kind entry yields the empty section. -/
theorem C5_sections_per_entry (today : String) (memories : List MemoryItem)
    (h : memories ≠ []) :
    ∃ doc, generateStory today memories = some doc ∧
      doc.sections = memories.map renderSection ∧
      doc.sections.length = memories.length ∧
      (∀ m ∈ memories, m.type = MemoryType.photo → renderSection m =
        "\n**📍 " ++ m.location.name ++ "**\n(📸 這裡拍下的照片捕捉了當下的氛圍)\n> [🗺️ 查看地圖座標](" ++
          ("https://www.google.com/maps/search/?api=1&query=" ++ toString m.location.lat ++ "," ++
            toString m.location.lng) ++ ")\n") ∧
      (∀ m ∈ memories, m.type = MemoryType.voice → renderSection m =
        "\n**📍 " ++ m.location.name ++ "**\n> 💭 語音筆記：「" ++ m.content ++
          "」\n> [🗺️ 查看地圖座標](" ++
          ("https://www.google.com/maps/search/?api=1&query=" ++ toString m.location.lat ++ "," ++
            toString m.location.lng) ++ ")\n") ∧
      (∀ m ∈ memories, m.type = MemoryType.text → renderSection m = "") := by
  have hdoc : generateStory today memories =
      some
        { title := "# 🗺️ 旅程回憶錄：" ++ (uniqueLocations memories).headD "" ++ " 之旅"
          dateGenerated := today
          waypointSequence := uniqueLocations memories
          sections := memories.map renderSection } := by
    unfold generateStory
    rw [if_neg (by simpa using h)]
  refine ⟨_, hdoc, rfl, by simp, ?_, ?_, ?_⟩
  · intro m _ ht
    simp [renderSection, ht, mapLink]
  · intro m _ ht
    simp [renderSection, ht, mapLink]
  · intro m _ ht
    simp [renderSection, ht]

/-- C5 witness: a snapshot with one photo entry and one voice entry at the
same waypoint yields exactly two sections in storage order. -/
theorem C5_witness :
    mixedSnapshot ≠ [] ∧
    (generateStory "2026-10-11" mixedSnapshot).map NarrativeDocument.sections =
      some (mixedSnapshot.map renderSection) ∧
    (mixedSnapshot.map renderSection).length = mixedSnapshot.length := by
  obtain ⟨doc, h1, h2, h3, _⟩ := C5_sections_per_entry "2026-10-11" mixedSnapshot (by decide)
  refine ⟨by decide, ?_, ?_⟩
  · rw [h1, Option.map_some', h2]
  · rw [← h2]
    exact h3

/-- C6 (confirmed): requesting synthesis on an empty timeline is rejected
synchronously — the guard returns before any document is assembled — so no
narrative document is produced and the state, including the previously
displayed document, is unchanged. -/
theorem C6_empty_rejected (today : String) (s : AppState) (h : s.memories = []) :
    generateStoryApp today s = s ∧ generateStory today s.memories = none := by
  constructor
  · unfold generateStoryApp
    rw [h]
    rfl
  · unfold generateStory
    rw [h]
    rfl

/-- C6 witness: the empty initial state is unchanged by a synthesis request. -/
theorem C6_witness :
    initState.memories = [] ∧
    generateStoryApp "2026-10-11" initState = initState ∧
    generateStory "2026-10-11" initState.memories = none :=
  ⟨rfl, (C6_empty_rejected "2026-10-11" initState rfl).1,
    (C6_empty_rejected "2026-10-11" initState rfl).2⟩

/-- C7 (confirmed): interim (non-final) segments never change any state — in
particular they never reach the accumulated transcript or the timeline — and a
start/stop cycle that received only interim segments ends with an empty
transcript, an unchanged timeline (no entry created), and the session
inactive. -/
theorem C7_interim_only (s : AppState) (segs : List Segment) (n1 n2 : Nat)
    (hrec : s.isRecording = false) (hint : ∀ seg ∈ segs, seg.isFinal = false) :
    (∀ t : AppState, onResult segs t = t) ∧
    toggleRecording n2 (onResult segs (toggleRecording n1 s)) =
      { s with transcript := "", isRecording := false } ∧
    (onResult segs (toggleRecording n1 s)).transcript = "" ∧
    (toggleRecording n2 (onResult segs (toggleRecording n1 s))).memories = s.memories := by
  have hid : ∀ t : AppState, onResult segs t = t := onResult_interim segs hint
  have hstart : toggleRecording n1 s = { s with transcript := "", isRecording := true } :=
    toggleRecording_start n1 s hrec
  have hfinal : toggleRecording n2 (onResult segs (toggleRecording n1 s)) =
      { s with transcript := "", isRecording := false } := by
    rw [hid, hstart]
    have htr : jsTrim ({ s with transcript := "", isRecording := true } : AppState).transcript =
        "" := rfl
    rw [toggleRecording_stop_empty n2 _ rfl htr]
  refine ⟨hid, hfinal, ?_, ?_⟩
  · rw [hid, hstart]
  · rw [hfinal]

/-- C7 witness: a session receiving only the interim segment "um" creates no
entry and ends with an empty transcript. -/
theorem C7_witness :
    initState.isRecording = false ∧
    (∀ seg ∈ [({ text := "um", isFinal := false } : Segment)], seg.isFinal = false) ∧
    toggleRecording 9 (onResult [{ text := "um", isFinal := false }] (toggleRecording 8 initState)) =
      { initState with transcript := "", isRecording := false } ∧
    (toggleRecording 9 (onResult [{ text := "um", isFinal := false }]
        (toggleRecording 8 initState))).memories = initState.memories := by
  have h := C7_interim_only initState [{ text := "um", isFinal := false }] 8 9 rfl (by decide)
  exact ⟨rfl, by decide, h.2.1, h.2.2.2⟩

/-- C8 (confirmed): after `delete(id)` no entry with that id remains; deletion
is idempotent; and deleting an id that is not present leaves the state exactly
unchanged. -/
theorem C8_delete_idempotent (s : AppState) (i : String) :
    (∀ m ∈ (deleteMemory i s).memories, m.id ≠ i) ∧
    deleteMemory i (deleteMemory i s) = deleteMemory i s ∧
    ((∀ m ∈ s.memories, m.id ≠ i) → deleteMemory i s = s) := by
  refine ⟨?_, ?_, ?_⟩
  · intro m hm
    exact bne_iff_ne.mp (List.mem_filter.mp hm).2
  · show { s with memories := (s.memories.filter (fun m => m.id != i)).filter (fun m => m.id != i) } =
      { s with memories := s.memories.filter (fun m => m.id != i) }
    have hff : (s.memories.filter (fun m => m.id != i)).filter (fun m => m.id != i) =
        s.memories.filter (fun m => m.id != i) := by
      rw [List.filter_filter]
      exact List.filter_congr fun a _ => Bool.and_self _
    rw [hff]
  · intro hall
    show { s with memories := s.memories.filter (fun m => m.id != i) } = s
    have : s.memories.filter (fun m => m.id != i) = s.memories :=
      List.filter_eq_self.mpr fun a ha => bne_iff_ne.mpr (hall a ha)
    rw [this]

/-- C8 witness: deleting id "2" removes it; deleting the absent id "9" is a
no-op; both deletions are idempotent on the example timeline. -/
theorem C8_witness :
    (∀ m ∈ (deleteMemory "2" delState).memories, m.id ≠ "2") ∧
    deleteMemory "2" (deleteMemory "2" delState) = deleteMemory "2" delState ∧
    (∀ m ∈ delState.memories, m.id ≠ "9") ∧
    deleteMemory "9" delState = delState := by
  have h2 := C8_delete_idempotent delState "2"
  have h9 := C8_delete_idempotent delState "9"
  exact ⟨h2.1, h2.2.1, by decide, h9.2.2 (by decide)⟩

/-- C9 (confirmed): synthesis is deterministic in the snapshot — two
invocations on the same non-empty timeline (even on different dates) produce
documents with the same title, the same `waypointSequence`, and identical
sections. -/
theorem C9_synthesis_idempotent (today1 today2 : String) (memories : List MemoryItem)
    (h : memories ≠ []) :
    ∃ doc1 doc2, generateStory today1 memories = some doc1 ∧
      generateStory today2 memories = some doc2 ∧
      doc1.title = doc2.title ∧
      doc1.waypointSequence = doc2.waypointSequence ∧
      doc1.sections = doc2.sections := by
  have hne : ¬ memories.length = 0 := by simpa using h
  unfold generateStory
  rw [if_neg hne, if_neg hne]
  exact ⟨_, _, rfl, rfl, rfl, rfl, rfl⟩

/-- C9 witness: the determinism theorem applied to the example snapshot on two
different dates. -/
theorem C9_witness :
    exampleSnapshot ≠ [] ∧
    ∃ doc1 doc2, generateStory "2026-10-11" exampleSnapshot = some doc1 ∧
      generateStory "2026-10-12" exampleSnapshot = some doc2 ∧
      doc1.title = doc2.title ∧
      doc1.waypointSequence = doc2.waypointSequence ∧
      doc1.sections = doc2.sections :=
  ⟨by decide, C9_synthesis_idempotent "2026-10-11" "2026-10-12" exampleSnapshot (by decide)⟩

/-- C10 (confirmed): a photo-capture change event carrying no file creates no
entry and leaves the whole state — timeline, transcript, recording flag,
generated story, location — unchanged. -/
theorem C10_no_file_no_change (now : Nat) (s : AppState) :
    handlePhotoUpload none now s = s :=
  rfl

end TravelMem
